import Mathlib

/-!
Shallow embedding of the Azhagappar Academy backend's payment-gated
entitlement, progression and media-streaming logic, together with proofs
of the specification's claims about it.

Each definition mirrors one JavaScript function or route handler from the
repository (file and line references are given in the doc comments).
Database state (the unique Payment / Progress record per (learner, course)
pair, the Level and Course documents) is passed explicitly; `Date.now()`
is an explicit `now : Nat` parameter.
-/

namespace AzBackend

/-- Role attached to a request by the auth middleware (`req.userRole`,
src/middleware/auth.js).  The User model only admits `admin` and `student`. -/
inductive Role where
  | admin
  | student
deriving DecidableEq, Repr

/-- Payment verification status (src/models/Payment.js, `status` enum). -/
inductive PayStatus where
  | pending
  | approved
  | rejected
deriving DecidableEq, Repr

/-- Course lifecycle status (spec section 3; handlers only test `published`). -/
inductive CourseStatus where
  | draft
  | published
  | archived
deriving DecidableEq, Repr

/-- The Course fields consulted by the handlers under verification. -/
structure Course where
  price : Nat
  status : CourseStatus
deriving DecidableEq, Repr

/-- The Payment record for a (learner, course) pair (src/models/Payment.js).
The uniqueness constraint means each pair has at most one such record,
so the "latest" payment is the record itself. -/
structure Payment where
  transactionId : String
  proofImage : String
  amount : Int
  status : PayStatus
  verifiedBy : Option Nat
  verifiedAt : Option Nat
  rejectionReason : String
  notes : String
deriving DecidableEq, Repr

/-- The Level fields consulted by the handlers (src/models, Level schema):
`videoPath` is `none` when unset (`null` in JS) and may hold the
placeholder string "pending". -/
structure Level where
  courseId : Nat
  title : String
  levelNumber : Nat
  quizEnabled : Bool
  videoPath : Option String
deriving DecidableEq, Repr

/-- One per-level completion entry of a Progress record
(src/models/Progress.js, `levelProgressSchema`). -/
structure LevelEntry where
  levelId : Nat
  completed : Bool
  completedAt : Option Nat
  quizScore : Int
  quizPassed : Bool
  quizAttempts : Nat
  videoWatchedPercent : Int
deriving DecidableEq, Repr

/-- The Progress record for a (learner, course) pair
(src/models/Progress.js). -/
structure Progress where
  completedLevels : List LevelEntry
  currentLevel : Nat
  totalProgress : Nat
  courseCompleted : Bool
  courseCompletedAt : Option Nat
  lastAccessedAt : Nat
deriving DecidableEq, Repr

/-- JS `x || d` on a number known to be a non-negative integer:
`0` is falsy and replaced by the default. -/
def jsOr (n d : Nat) : Nat := if n = 0 then d else n

/-- JS `Math.round` of the non-negative rational `a / b`, as computed on
exact integers: `Math.round x = ⌊x + 1/2⌋`, so
`round (a/b) = ⌊(2a + b) / (2b)⌋`, which is Nat division. -/
def jsRoundDiv (a b : Nat) : Nat := (2 * a + b) / (2 * b)

/-- A fresh Progress record, as created by `Progress.create({...,
completedLevels: [], currentLevel: 1})` (schema defaults fill in the
rest; timestamps default to the creation instant). -/
def freshProgress (now : Nat) : Progress :=
  { completedLevels := []
    currentLevel := 1
    totalProgress := 0
    courseCompleted := false
    courseCompletedAt := none
    lastAccessedAt := now }

/-- `ensureProgress` (src/unnamed/part_008 lines 34-46 and the lazy create
in the other handlers): return the pair's Progress record, creating a
fresh one when absent. -/
def ensureProgress (p : Option Progress) (now : Nat) : Progress :=
  p.getD (freshProgress now)

/-- `checkCourseAccess` (src/unnamed/part_008 lines 7-31): resolve the
access decision from the caller's role, the course document and the
pair's Payment record (the `findOne({status: 'approved'})` query succeeds
exactly when the unique record has status approved).  Returns the pair
`(course as seen by the caller, hasAccess)`. -/
def checkCourseAccess (role : Role) (course : Option Course)
    (payment : Option Payment) : Option Course × Bool :=
  match course with
  | none => (none, false)
  | some c =>
    if role ≠ Role.admin ∧ c.status ≠ CourseStatus.published then
      (none, false)
    else if role = Role.admin ∨ c.price = 0 then
      (some c, true)
    else
      (some c, payment.any (fun p => p.status = PayStatus.approved))

/-- Modelled from the spec's words (section 4.2 / section 8): the pure
entitlement rule the claim states — true iff role is admin, or the course
price is 0, or the latest payment status is approved.  Used only to be
compared against the source's decision functions. -/
def hasAccessSpec (role : Role) (price : Nat) (latest : Option PayStatus) : Bool :=
  role = Role.admin ∨ price = 0 ∨ latest = some PayStatus.approved

/-- String form of a payment status as serialized in responses. -/
def payStatusString : PayStatus → String
  | PayStatus.pending => "pending"
  | PayStatus.approved => "approved"
  | PayStatus.rejected => "rejected"

/-- Response body of `GET /payments/course/:courseId/status`. -/
structure CourseStatusResp where
  status : String
  hasAccess : Bool
  progress : Nat
  currentLevel : Nat
deriving DecidableEq, Repr

/-- The `GET /payments/course/:courseId/status` handler
(src/routes/payments.js lines 105-137).  `none` is the 404 path (course
missing, or unpublished and the caller is not an admin). -/
def paymentCourseStatus (role : Role) (course : Option Course)
    (payment : Option Payment) (progress : Option Progress) :
    Option CourseStatusResp :=
  match course with
  | none => none
  | some c =>
    if role ≠ Role.admin ∧ c.status ≠ CourseStatus.published then
      none
    else
      some
        { status :=
            match payment with
            | some p => payStatusString p.status
            | none => if c.price = 0 then "free" else "unpaid"
          hasAccess :=
            (c.price = 0) ∨ payment.any (fun p => p.status = PayStatus.approved)
          progress := (progress.map Progress.totalProgress).getD 0
          currentLevel := (progress.map Progress.currentLevel).getD 0 }

/-- Outcome of `POST /payments` (src/routes/payments.js lines 142-273);
each constructor is one early-return branch of the handler.
`resubmitted` carries the id of the mutated record and its new contents
(HTTP 200); `created` carries the new record (HTTP 201). -/
inductive SubmitOutcome where
  | noProof
  | noCourseId
  | invalidCourseId
  | noTransactionId
  | courseNotFound
  | freeCourse
  | invalidAmount
  | alreadyCovered
  | resubmitted (id : Nat) (p : Payment)
  | created (p : Payment)
deriving DecidableEq, Repr

/-- HTTP status code produced for each `POST /payments` outcome. -/
def SubmitOutcome.httpStatus : SubmitOutcome → Nat
  | SubmitOutcome.noProof => 400
  | SubmitOutcome.noCourseId => 400
  | SubmitOutcome.invalidCourseId => 400
  | SubmitOutcome.noTransactionId => 400
  | SubmitOutcome.courseNotFound => 404
  | SubmitOutcome.freeCourse => 400
  | SubmitOutcome.invalidAmount => 400
  | SubmitOutcome.alreadyCovered => 400
  | SubmitOutcome.resubmitted _ _ => 200
  | SubmitOutcome.created _ => 201

/-- The `POST /payments` handler (src/routes/payments.js lines 142-273).
`hasFile` is whether a proof image was uploaded, `courseIdStr` the trimmed
courseId field with `courseIdValid` its ObjectId validity, `amountReq` the
parsed `amount` field (`none` when absent or empty, in which case the
course price is used), `existing` the pair's unique Payment record with
its id, and `proofImage` the persisted path of the uploaded proof. -/
def paymentSubmit (role : Role) (hasFile : Bool) (courseIdStr : String)
    (courseIdValid : Bool) (transactionId : String) (course : Option Course)
    (amountReq : Option Int) (existing : Option (Nat × Payment))
    (proofImage : String) : SubmitOutcome :=
  if ¬ hasFile then SubmitOutcome.noProof
  else if courseIdStr = "" then SubmitOutcome.noCourseId
  else if ¬ courseIdValid then SubmitOutcome.invalidCourseId
  else if transactionId = "" then SubmitOutcome.noTransactionId
  else
    match course with
    | none => SubmitOutcome.courseNotFound
    | some c =>
      if role ≠ Role.admin ∧ c.status ≠ CourseStatus.published then
        SubmitOutcome.courseNotFound
      else if c.price = 0 then SubmitOutcome.freeCourse
      else
        let amount : Int := amountReq.getD (c.price : Int)
        if amount ≤ 0 then SubmitOutcome.invalidAmount
        else
          match existing with
          | some (i, p) =>
            if p.status = PayStatus.approved ∨ p.status = PayStatus.pending then
              SubmitOutcome.alreadyCovered
            else
              SubmitOutcome.resubmitted i
                { p with
                    transactionId := transactionId
                    amount := amount
                    proofImage := proofImage
                    status := PayStatus.pending
                    rejectionReason := ""
                    notes := ""
                    verifiedBy := none
                    verifiedAt := none }
          | none =>
            SubmitOutcome.created
              { transactionId := transactionId
                proofImage := proofImage
                amount := amount
                status := PayStatus.pending
                verifiedBy := none
                verifiedAt := none
                rejectionReason := ""
                notes := "" }

/-- Whether a level's stored video reference is missing or an unset
placeholder: `!level || !level.videoPath || level.videoPath === 'pending'`
(src/unnamed/part_013 line 441). -/
def videoRefMissing (level : Option Level) : Bool :=
  match level with
  | none => true
  | some l =>
    match l.videoPath with
    | none => true
    | some s => s = "" ∨ s = "pending"

/-- Authorization outcome of `GET /levels/:id/stream`
(src/unnamed/part_013 lines 438-503): the early-return reached, or
`serve` when all checks pass and bytes are served. -/
inductive StreamOutcome where
  | videoMissing
  | courseNotFound
  | locked
  | seqForbidden
  | serve
deriving DecidableEq, Repr

/-- HTTP status code of each stream authorization failure (`serve` then
proceeds to the 200/206/416 serving logic). -/
def StreamOutcome.httpStatus : StreamOutcome → Nat
  | StreamOutcome.videoMissing => 404
  | StreamOutcome.courseNotFound => 404
  | StreamOutcome.locked => 403
  | StreamOutcome.seqForbidden => 403
  | StreamOutcome.serve => 200

/-- The authorization prefix of the `GET /levels/:id/stream` handler
(src/unnamed/part_013 lines 438-503), up to the point where bytes are
served.  Returns the outcome together with the Progress record stored in
the database afterwards (`Progress.create` persists the lazily created
record even when the sequence check then fails; the serve path for
non-admins saves `lastAccessedAt := now`). -/
def streamAuth (role : Role) (level : Option Level) (course : Option Course)
    (payment : Option Payment) (progress0 : Option Progress) (now : Nat) :
    StreamOutcome × Option Progress :=
  if videoRefMissing level then (StreamOutcome.videoMissing, progress0)
  else
    match course with
    | none => (StreamOutcome.courseNotFound, progress0)
    | some c =>
      if role ≠ Role.admin ∧ c.status ≠ CourseStatus.published then
        (StreamOutcome.courseNotFound, progress0)
      else
        let approvedPayment := payment.any (fun p => p.status = PayStatus.approved)
        let hasAccess := role = Role.admin ∨ c.price = 0 ∨ approvedPayment
        if ¬ hasAccess then (StreamOutcome.locked, progress0)
        else if role ≠ Role.admin then
          let pr := ensureProgress progress0 now
          if (level.map Level.levelNumber).getD 0 > jsOr pr.currentLevel 1 then
            (StreamOutcome.seqForbidden, some pr)
          else
            (StreamOutcome.serve, some { pr with lastAccessedAt := now })
        else
          (StreamOutcome.serve, progress0)

/-- Modelled from the claim's words (spec section 4.4): the four ordered,
short-circuiting authorization checks of the streaming endpoint, stated
over an existing owning course: (1) missing/placeholder video reference
gives 404; (2) unpublished course for a non-admin gives 404; (3) failed
entitlement (the section 4.2 rule) gives 403; (4) for non-admins, a level
number above the unlock frontier gives 403; otherwise serve. -/
def streamAuthSpec (role : Role) (level : Option Level) (c : Course)
    (payment : Option Payment) (progress0 : Option Progress) : StreamOutcome :=
  if videoRefMissing level then StreamOutcome.videoMissing
  else if role ≠ Role.admin ∧ c.status ≠ CourseStatus.published then
    StreamOutcome.courseNotFound
  else if ¬ hasAccessSpec role c.price (payment.map Payment.status) then
    StreamOutcome.locked
  else if role ≠ Role.admin ∧
      (level.map Level.levelNumber).getD 0 >
        (match progress0 with
         | some p => jsOr p.currentLevel 1
         | none => 1) then
    StreamOutcome.seqForbidden
  else StreamOutcome.serve

/-- `progressSchema.methods.calculateProgress` (src/models/Progress.js
lines 96-101): recompute `totalProgress` as the rounded completed-level
percentage; with zero total levels the method returns early without
assigning.  JS number arithmetic on these small integers is modelled
exactly. -/
def calculateProgress (p : Progress) (totalLevels : Nat) : Progress :=
  if totalLevels = 0 then p
  else
    { p with
        totalProgress :=
          jsRoundDiv (100 * p.completedLevels.countP (fun l => l.completed))
            totalLevels }

/-- The course-completion block shared by `POST /progress/level-complete`
(src/unnamed/part_008 lines 150-154) and `POST /quizzes/:id/submit`
(src/unnamed/part_014 lines 301-305): when the unlock frontier has passed
the last level, mark the course completed, force `totalProgress` to 100
and stamp `courseCompletedAt` with the current time (unconditionally). -/
def completionUpdate (p : Progress) (totalLevels now : Nat) : Progress :=
  if p.currentLevel > totalLevels then
    { p with
        courseCompleted := true
        courseCompletedAt := some now
        totalProgress := 100 }
  else p

/-- Replace the completed-levels entry whose `levelId` matches, merging as
the JS spread `{...old.toObject(), ...newData}` does (fields present in
`newData` override; `keep` carries any field of the old entry that
`newData` does not set). -/
def replaceEntry (ls : List LevelEntry) (levelId : Nat)
    (mk : LevelEntry → LevelEntry) : List LevelEntry :=
  match ls with
  | [] => []
  | e :: rest =>
    if e.levelId = levelId then mk e :: rest
    else e :: replaceEntry rest levelId mk

/-- Whether some completed-levels entry has the given `levelId`
(`findIndex(...) > -1`). -/
def hasEntry (ls : List LevelEntry) (levelId : Nat) : Bool :=
  ls.any (fun e => e.levelId = levelId)

/-- The completed-levels entry for `levelId`, when present (the entry the
handlers read as `existing`). -/
def findEntry (ls : List LevelEntry) (levelId : Nat) : Option LevelEntry :=
  ls.find? (fun e => e.levelId = levelId)

/-- Outcome of `POST /progress/level-complete` (src/unnamed/part_008
lines 92-165); each constructor is one early-return branch. -/
inductive LCOutcome where
  | levelNotFound
  | courseNotFound
  | locked
  | seqViolation
  | ok
deriving DecidableEq, Repr

/-- HTTP status code of each `POST /progress/level-complete` outcome. -/
def LCOutcome.httpStatus : LCOutcome → Nat
  | LCOutcome.levelNotFound => 404
  | LCOutcome.courseNotFound => 404
  | LCOutcome.locked => 403
  | LCOutcome.seqViolation => 403
  | LCOutcome.ok => 200

/-- The `POST /progress/level-complete` handler (src/unnamed/part_008
lines 92-165).  `levelId` is the body's level id (the key of the
completed-levels entries), `level` the Level document found for it,
`videoWatchedPercent` the body field after `Number(...)` (`none` for NaN,
then `|| 0`), `totalLevels` the course's level count, `now` the clock.
Returns the outcome and the Progress record stored afterwards (lazy
creation by `ensureProgress` persists even when the sequence check then
fails). -/
def levelComplete (role : Role) (courseId : Nat) (levelId : Nat)
    (level : Option Level) (course : Option Course) (payment : Option Payment)
    (progress0 : Option Progress) (videoWatchedPercent : Option Int)
    (quizScore : Int) (quizPassed : Bool) (totalLevels now : Nat) :
    LCOutcome × Option Progress :=
  match level with
  | none => (LCOutcome.levelNotFound, progress0)
  | some lv =>
    if lv.courseId ≠ courseId then (LCOutcome.levelNotFound, progress0)
    else
      match checkCourseAccess role course payment with
      | (none, _) => (LCOutcome.courseNotFound, progress0)
      | (some _, hasAccess) =>
        if ¬ hasAccess then (LCOutcome.locked, progress0)
        else
          let pr := ensureProgress progress0 now
          if lv.levelNumber > jsOr pr.currentLevel 1 then
            (LCOutcome.seqViolation, some pr)
          else
            let videoPercent : Int := min 100 (videoWatchedPercent.getD 0)
            let isVideoComplete : Bool := decide ((90 : Int) ≤ videoPercent)
            let levelCompleted : Bool :=
              if lv.quizEnabled then quizPassed else isVideoComplete
            let setData : LevelEntry → LevelEntry := fun old =>
              { old with
                  levelId := levelId
                  completed := levelCompleted
                  completedAt := if levelCompleted then some now else none
                  videoWatchedPercent := videoPercent
                  quizScore := if quizScore = 0 then 0 else quizScore
                  quizPassed := quizPassed }
            let levels :=
              if hasEntry pr.completedLevels levelId then
                replaceEntry pr.completedLevels levelId setData
              else
                pr.completedLevels ++
                  [setData
                    { levelId := levelId, completed := false, completedAt := none
                      quizScore := 0, quizPassed := false, quizAttempts := 0
                      videoWatchedPercent := 0 }]
            let cur :=
              if !lv.quizEnabled && isVideoComplete then
                max (jsOr pr.currentLevel 1) (lv.levelNumber + 1)
              else pr.currentLevel
            let pr1 := { pr with completedLevels := levels, currentLevel := cur }
            let pr2 := calculateProgress pr1 totalLevels
            let pr3 := completionUpdate pr2 totalLevels now
            let pr4 := { pr3 with lastAccessedAt := now }
            (LCOutcome.ok, some pr4)

/-- One element of the `answers` array of `POST /quizzes/:id/submit`:
`questionId` is `none` when the item has no stringable question id (the
item is skipped), `selectedAnswer` is the value after `Number(...)`
(`none` when not an integer, which the handler maps to `-1`). -/
structure Answer where
  questionId : Option Nat
  selectedAnswer : Option Int
deriving DecidableEq, Repr

/-- One stored quiz question (src/models/Quiz.js, `questionSchema`). -/
structure Question where
  qid : Nat
  correctAnswer : Int
deriving DecidableEq, Repr

/-- The Quiz fields consulted by the submit handler
(src/models/Quiz.js). -/
structure Quiz where
  levelId : Nat
  courseId : Nat
  questions : List Question
  passingScore : Int
  maxAttempts : Nat
  active : Bool
deriving DecidableEq, Repr

/-- The `answerMap` built in src/unnamed/part_014 lines 241-248: keyed by
question id, later entries overwriting earlier ones, non-integer selected
answers stored as `-1`. -/
def answerMapGet (answers : List Answer) (qid : Nat) : Option Int :=
  answers.foldl
    (fun acc a =>
      match a.questionId with
      | none => acc
      | some q => if q = qid then some (a.selectedAnswer.getD (-1)) else acc)
    none

/-- The `selectedAnswer` derived per question (src/unnamed/part_014
line 253): the mapped value when it is a non-negative integer, else
`null`. -/
def selectedAnswerFor (answers : List Answer) (qid : Nat) : Option Int :=
  match answerMapGet answers qid with
  | some v => if 0 ≤ v then some v else none
  | none => none

/-- Number of questions answered with the stored correct option index
(src/unnamed/part_014 lines 250-266): unanswered or out-of-range
selections count as incorrect. -/
def correctCount (answers : List Answer) (questions : List Question) : Nat :=
  questions.countP
    (fun q => selectedAnswerFor answers q.qid = some q.correctAnswer)

/-- Response fields of a successful `POST /quizzes/:id/submit`. -/
structure QuizResult where
  score : Nat
  passed : Bool
  correctAnswers : Nat
  totalQuestions : Nat
  attemptsUsed : Nat
  maxAttempts : Nat
  canRetry : Bool
deriving DecidableEq, Repr

/-- Outcome of `POST /quizzes/:id/submit` (src/unnamed/part_014 lines
167-325); each constructor is one early-return branch. -/
inductive QSOutcome where
  | quizNotFound
  | notActive
  | noQuestions
  | levelNotFound
  | courseNotFound
  | locked
  | maxAttemptsHit (attemptsUsed : Nat) (maxAttempts : Nat)
  | ok (r : QuizResult)
deriving DecidableEq, Repr

/-- HTTP status code of each `POST /quizzes/:id/submit` outcome. -/
def QSOutcome.httpStatus : QSOutcome → Nat
  | QSOutcome.quizNotFound => 404
  | QSOutcome.notActive => 403
  | QSOutcome.noQuestions => 400
  | QSOutcome.levelNotFound => 404
  | QSOutcome.courseNotFound => 404
  | QSOutcome.locked => 403
  | QSOutcome.maxAttemptsHit _ _ => 400
  | QSOutcome.ok _ => 200

/-- JS `existing?.completedAt || null` on an optional timestamp: a falsy
stored value (absent entry, `null`, or `0`) becomes `null`. -/
def jsOrNullTime (o : Option Nat) : Option Nat :=
  match o with
  | some t => if t = 0 then none else some t
  | none => none

/-- The `POST /quizzes/:id/submit` handler (src/unnamed/part_014 lines
167-325).  `levelId` is the quiz's level id (`level._id`), `level` the
Level document found for it, `course` the quiz's course; `progress0` is
the pair's Progress record (`none` triggers lazy creation, which the
database keeps even when the attempts check then fails).  Returns the
outcome and the Progress record stored afterwards. -/
def quizSubmit (role : Role) (answers : List Answer) (quiz : Option Quiz)
    (levelId : Nat) (level : Option Level) (course : Option Course)
    (payment : Option Payment) (progress0 : Option Progress)
    (totalLevels now : Nat) : QSOutcome × Option Progress :=
  match quiz with
  | none => (QSOutcome.quizNotFound, progress0)
  | some qz =>
    if ¬ qz.active ∧ role ≠ Role.admin then (QSOutcome.notActive, progress0)
    else if qz.questions = [] then (QSOutcome.noQuestions, progress0)
    else
      match level with
      | none => (QSOutcome.levelNotFound, progress0)
      | some lv =>
        match course with
        | none => (QSOutcome.courseNotFound, progress0)
        | some c =>
          if role ≠ Role.admin ∧ c.status ≠ CourseStatus.published then
            (QSOutcome.courseNotFound, progress0)
          else
            let isFree := c.price = 0
            let approvedPayment :=
              payment.any (fun p => p.status = PayStatus.approved)
            if role ≠ Role.admin ∧ ¬ isFree ∧ ¬ approvedPayment then
              (QSOutcome.locked, progress0)
            else
              let pr := ensureProgress progress0 now
              let existing := findEntry pr.completedLevels levelId
              let attemptsUsedBefore :=
                (existing.map LevelEntry.quizAttempts).getD 0
              if role ≠ Role.admin ∧ attemptsUsedBefore ≥ qz.maxAttempts then
                (QSOutcome.maxAttemptsHit attemptsUsedBefore qz.maxAttempts,
                  some pr)
              else
                let cc := correctCount answers qz.questions
                let totalQuestions := qz.questions.length
                let score := jsRoundDiv (100 * cc) totalQuestions
                let passed : Bool := decide ((score : Int) ≥ qz.passingScore)
                let watchedEnough : Bool :=
                  match existing with
                  | some e => decide ((90 : Int) ≤ e.videoWatchedPercent)
                  | none => false
                let completed : Bool := passed && watchedEnough
                let attemptsUsed := attemptsUsedBefore + 1
                let entry : LevelEntry :=
                  { levelId := levelId
                    completed := completed
                    completedAt :=
                      if completed then some now
                      else jsOrNullTime (existing.bind LevelEntry.completedAt)
                    videoWatchedPercent :=
                      (existing.map LevelEntry.videoWatchedPercent).getD 0
                    quizScore := (score : Int)
                    quizPassed := passed
                    quizAttempts := attemptsUsed }
                let levels :=
                  if hasEntry pr.completedLevels levelId then
                    replaceEntry pr.completedLevels levelId (fun _ => entry)
                  else pr.completedLevels ++ [entry]
                let cur :=
                  if completed then
                    max (jsOr pr.currentLevel 1) (lv.levelNumber + 1)
                  else pr.currentLevel
                let pr1 :=
                  { pr with completedLevels := levels, currentLevel := cur }
                let pr2 := calculateProgress pr1 totalLevels
                let pr3 := completionUpdate pr2 totalLevels now
                (QSOutcome.ok
                  { score := score
                    passed := passed
                    correctAnswers := cc
                    totalQuestions := totalQuestions
                    attemptsUsed := attemptsUsed
                    maxAttempts := qz.maxAttempts
                    canRetry := !passed && decide (attemptsUsed < qz.maxAttempts) },
                  some pr3)

/-- Structured form of a `Content-Range` header value:
`some (s, e)` with `size` renders as `bytes s-e/size`, `none` with `size`
as `bytes */size`. -/
structure ContentRangeHeader where
  span : Option (Nat × Nat)
  size : Nat
deriving DecidableEq, Repr

/-- Response of the local ranged-serving branch: status, the headers the
code sets, and the byte offsets actually streamed to the client. -/
structure RangeResponse where
  status : Nat
  contentRange : Option ContentRangeHeader
  acceptRanges : Option String
  contentLength : Option Int
  body : List Nat
deriving DecidableEq, Repr

/-- The local-file ranged branch of `GET /levels/:id/stream`
(src/unnamed/part_013 lines 525-544).  `startPart` is
`parseInt(parts[0])` (`none` for NaN), `endPart` the optional end part
(`none` when omitted, in which case `fileSize - 1` is used).
`fs.createReadStream` throws `ERR_OUT_OF_RANGE` synchronously when
`start > end`, which the handler's catch turns into a 500 before any
header is written; otherwise it streams the requested bytes, stopping at
end of file. -/
def localRange (fileSize : Nat) (startPart : Option Nat)
    (endPart : Option Nat) : RangeResponse :=
  match startPart with
  | none =>
    { status := 416, contentRange := some { span := none, size := fileSize }
      acceptRanges := none, contentLength := none, body := [] }
  | some s =>
    if s ≥ fileSize then
      { status := 416, contentRange := some { span := none, size := fileSize }
        acceptRanges := none, contentLength := none, body := [] }
    else
      let e := endPart.getD (fileSize - 1)
      if s > e then
        { status := 500, contentRange := none, acceptRanges := none
          contentLength := none, body := [] }
      else
        { status := 206
          contentRange := some { span := some (s, e), size := fileSize }
          acceptRanges := some "bytes"
          contentLength := some ((e : Int) - (s : Int) + 1)
          body := List.range' s (min e (fileSize - 1) + 1 - s) }

/-- `Boolean(obj.videoPath && obj.videoPath !== 'pending')`
(src/unnamed/part_013 lines 213 and 256): the derived `hasVideo` flag. -/
def hasVideoB (vp : Option String) : Bool :=
  match vp with
  | none => false
  | some s => !(s = "") && !(s = "pending")

/-- One element of the `GET /levels/course/:courseId` response
(src/unnamed/part_013 lines 211-225).  `videoPath = none` means the key
was deleted from the serialized document; `some v` means it is present
with the stored value `v`. -/
structure LevelView where
  courseId : Nat
  title : String
  levelNumber : Nat
  quizEnabled : Bool
  videoPath : Option (Option String)
  hasVideo : Bool
  locked : Bool
deriving DecidableEq, Repr

/-- The per-level mapping of `GET /levels/course/:courseId`
(src/unnamed/part_013 lines 211-225): serialize the document, delete
`videoPath` for non-admins, and add the derived `hasVideo` and `locked`
flags. -/
def buildLevelView (role : Role) (l : Level) (unlockedLevelNumber : Nat) :
    LevelView :=
  { courseId := l.courseId
    title := l.title
    levelNumber := l.levelNumber
    quizEnabled := l.quizEnabled
    videoPath := if role = Role.admin then some l.videoPath else none
    hasVideo := hasVideoB l.videoPath
    locked := decide (l.levelNumber > unlockedLevelNumber) }

/-- The `GET /levels/:id` response body (src/unnamed/part_013 lines
255-263), with the same `videoPath` deletion for non-admins. -/
structure LevelDetail where
  courseId : Nat
  title : String
  levelNumber : Nat
  quizEnabled : Bool
  videoPath : Option (Option String)
  hasVideo : Bool
deriving DecidableEq, Repr

/-- The response construction of `GET /levels/:id` (src/unnamed/part_013
lines 255-263). -/
def buildLevelDetail (role : Role) (l : Level) : LevelDetail :=
  { courseId := l.courseId
    title := l.title
    levelNumber := l.levelNumber
    quizEnabled := l.quizEnabled
    videoPath := if role = Role.admin then some l.videoPath else none
    hasVideo := hasVideoB l.videoPath }

/-! ### Helper lemmas -/

/-- When `checkCourseAccess` reports no visible course, the access flag it
returns is false. -/
lemma checkCourseAccess_none_snd {role : Role} {course : Option Course}
    {payment : Option Payment} {s : Bool}
    (h : checkCourseAccess role course payment = (none, s)) : s = false := by
  cases course with
  | none => simpa [checkCourseAccess] using congrArg Prod.snd h
  | some c =>
    simp only [checkCourseAccess] at h
    split_ifs at h <;> simp_all

/-- The exact-integer form of `Math.round (a / b)` agrees with rounding the
rational `a / b` (Mathlib `round` is also floor of `x + 1/2`). -/
lemma jsRoundDiv_eq_round (a b : ℕ) (hb : 0 < b) :
    ((jsRoundDiv a b : ℕ) : ℤ) = round ((a : ℚ) / (b : ℚ)) := by
  rw [round_eq, jsRoundDiv]
  have key : (a : ℚ) / (b : ℚ) + 1 / 2 = ((2 * a + b : ℕ) : ℚ) / ((2 * b : ℕ) : ℚ) := by
    have hb' : ((b : ℚ)) ≠ 0 := by positivity
    push_cast
    field_simp
    ring
  rw [key, ← Int.natCast_floor_eq_floor (by positivity), Nat.floor_div_eq_div]

/-- `calculateProgress` only changes `totalProgress`. -/
lemma calculateProgress_currentLevel (p : Progress) (t : Nat) :
    (calculateProgress p t).currentLevel = p.currentLevel := by
  unfold calculateProgress
  split_ifs <;> rfl

/-- `calculateProgress` leaves the per-level entries unchanged. -/
lemma calculateProgress_completedLevels (p : Progress) (t : Nat) :
    (calculateProgress p t).completedLevels = p.completedLevels := by
  unfold calculateProgress
  split_ifs <;> rfl

/-- `completionUpdate` never moves the unlock frontier. -/
lemma completionUpdate_currentLevel (p : Progress) (t n : Nat) :
    (completionUpdate p t n).currentLevel = p.currentLevel := by
  unfold completionUpdate
  split_ifs <;> rfl

/-- `completionUpdate` leaves the per-level entries unchanged. -/
lemma completionUpdate_completedLevels (p : Progress) (t n : Nat) :
    (completionUpdate p t n).completedLevels = p.completedLevels := by
  unfold completionUpdate
  split_ifs <;> rfl

/-- Replacing the entry for `lid` makes that entry the one found
afterwards. -/
lemma findEntry_replace (ls : List LevelEntry) (lid : Nat) (entry : LevelEntry)
    (he : entry.levelId = lid) :
    hasEntry ls lid = true →
    findEntry (replaceEntry ls lid (fun _ => entry)) lid = some entry := by
  induction ls with
  | nil => simp [hasEntry]
  | cons e rest ih =>
    intro h
    by_cases hc : e.levelId = lid
    · simp [replaceEntry, hc, findEntry, he]
    · have h' : hasEntry rest lid = true := by
        simpa [hasEntry, hc] using h
      simp only [replaceEntry, if_neg hc]
      rw [findEntry] at ih ⊢
      simpa [List.find?, hc] using ih h'

/-- Appending a fresh entry for `lid` to a list without one makes it the
entry found afterwards. -/
lemma findEntry_append (ls : List LevelEntry) (lid : Nat) (entry : LevelEntry)
    (he : entry.levelId = lid) :
    hasEntry ls lid = false →
    findEntry (ls ++ [entry]) lid = some entry := by
  induction ls with
  | nil => simp [findEntry, he]
  | cons e rest ih =>
    intro h
    have hc : ¬ (e.levelId = lid) := by
      intro hx
      simp [hasEntry, hx] at h
    have h' : hasEntry rest lid = false := by
      simpa [hasEntry, hc] using h
    simp [findEntry, hc] at ih ⊢
    exact ih h'

/-! ### Claim C1 -/

/-- Claim C1, counterexample: the claim's rule says an admin always has
access, but the `hasAccess` field of `GET /payments/course/:courseId/status`
omits the admin clause — for an admin caller on a published paid course
with no payment record, the endpoint returns `hasAccess = false` while the
claimed rule gives true. -/
theorem C1_counterexample :
    ((paymentCourseStatus Role.admin
        (some { price := 100, status := CourseStatus.published }) none none).map
      CourseStatusResp.hasAccess) = some false ∧
    hasAccessSpec Role.admin 100 none = true := by decide

/-- Claim C1, amended: for every caller and visible course (published, or
any course for an admin caller), the access decision of
`checkCourseAccess` equals the claimed rule — true iff the role is admin,
or the price is 0, or the pair's (latest) payment is approved.  The
status endpoint's `hasAccess` field is the exception recorded in the
counterexample. -/
theorem C1_entitlement_amended :
    ∀ (role : Role) (c : Course) (payment : Option Payment),
      c.status = CourseStatus.published ∨ role = Role.admin →
      (checkCourseAccess role (some c) payment).2 =
        hasAccessSpec role c.price (payment.map Payment.status) := by
  intro role c payment h
  cases role with
  | admin => cases payment <;> simp [checkCourseAccess, hasAccessSpec]
  | student =>
    have hpub : c.status = CourseStatus.published := by
      rcases h with h | h
      · exact h
      · exact absurd h (by simp)
    by_cases hp : c.price = 0
    · cases payment <;> simp [checkCourseAccess, hasAccessSpec, hpub, hp]
    · cases payment with
      | none => simp [checkCourseAccess, hasAccessSpec, hpub, hp]
      | some p => simp [checkCourseAccess, hasAccessSpec, hpub, hp]

/-- Claim C1 witness: the amended equivalence evaluated for a student on a
free published course. -/
theorem C1_entitlement_amended_witness :
    (checkCourseAccess Role.student
        (some { price := 0, status := CourseStatus.published }) none).2 =
      hasAccessSpec Role.student 0 none :=
  C1_entitlement_amended Role.student
    { price := 0, status := CourseStatus.published } none (Or.inl rfl)

/-! ### Claim C2 -/

/-- Claim C2, counterexample: `POST /quizzes/:id/submit` performs no
sequence check.  A student submitting the quiz of level 5 while the unlock
frontier is still 1 gets a 200 response and the Progress record is mutated
(an entry with one quiz attempt is recorded), contradicting the claim that
the operation fails with 403 and leaves the record unchanged. -/
theorem C2_counterexample :
    (quizSubmit Role.student []
      (some { levelId := 10, courseId := 1,
              questions := [{ qid := 1, correctAnswer := 0 }],
              passingScore := 70, maxAttempts := 3, active := true })
      10
      (some { courseId := 1, title := "L5", levelNumber := 5, quizEnabled := true,
              videoPath := some "x" })
      (some { price := 0, status := CourseStatus.published })
      none
      (some { completedLevels := [], currentLevel := 1, totalProgress := 0,
              courseCompleted := false, courseCompletedAt := none,
              lastAccessedAt := 0 })
      5 7).1.httpStatus = 200 ∧
    (quizSubmit Role.student []
      (some { levelId := 10, courseId := 1,
              questions := [{ qid := 1, correctAnswer := 0 }],
              passingScore := 70, maxAttempts := 3, active := true })
      10
      (some { courseId := 1, title := "L5", levelNumber := 5, quizEnabled := true,
              videoPath := some "x" })
      (some { price := 0, status := CourseStatus.published })
      none
      (some { completedLevels := [], currentLevel := 1, totalProgress := 0,
              courseCompleted := false, courseCompletedAt := none,
              lastAccessedAt := 0 })
      5 7).2 ≠
      some { completedLevels := [], currentLevel := 1, totalProgress := 0,
             courseCompleted := false, courseCompletedAt := none,
             lastAccessedAt := 0 } ∧
    (5 : Nat) > jsOr 1 1 := by decide

/-- Claim C2, amended: only `POST /progress/level-complete` enforces the
sequence rule — for any caller with access to the course, when the level's
number exceeds the learner's unlock frontier the handler returns the
403 sequence-violation outcome and the existing Progress record is stored
unchanged. -/
theorem C2_levelComplete_sequence_amended :
    ∀ (role : Role) (courseId levelId : Nat) (lv : Level) (course : Option Course)
      (payment : Option Payment) (p : Progress) (vwp : Option Int) (qs : Int)
      (qp : Bool) (totalLevels now : Nat),
      lv.courseId = courseId →
      (checkCourseAccess role course payment).2 = true →
      lv.levelNumber > jsOr p.currentLevel 1 →
      levelComplete role courseId levelId (some lv) course payment (some p) vwp qs
          qp totalLevels now = (LCOutcome.seqViolation, some p) := by
  intro role courseId levelId lv course payment p vwp qs qp totalLevels now
  intro hMatch hAcc hSeq
  unfold levelComplete
  rcases hE : checkCourseAccess role course payment with ⟨fst, snd⟩
  rw [hE] at hAcc
  simp only at hAcc
  cases fst with
  | none =>
    have hs := checkCourseAccess_none_snd hE
    rw [hs] at hAcc
    exact absurd hAcc (by simp)
  | some c =>
    subst hAcc
    simp [hE, hMatch, ensureProgress, hSeq]

/-- Claim C2 witness: the amended sequence rule evaluated for a student
skipping to level 3 with frontier 1 on a free published course. -/
theorem C2_levelComplete_sequence_amended_witness :
    levelComplete Role.student 1 10
        (some { courseId := 1, title := "L3", levelNumber := 3, quizEnabled := false,
                videoPath := some "v" })
        (some { price := 0, status := CourseStatus.published }) none
        (some { completedLevels := [], currentLevel := 1, totalProgress := 0,
                courseCompleted := false, courseCompletedAt := none,
                lastAccessedAt := 0 })
        (some 95) 0 false 3 7 =
      (LCOutcome.seqViolation,
        some { completedLevels := [], currentLevel := 1, totalProgress := 0,
               courseCompleted := false, courseCompletedAt := none,
               lastAccessedAt := 0 }) :=
  C2_levelComplete_sequence_amended Role.student 1 10 _ _ none _ (some 95) 0 false
    3 7 rfl (by decide) (by decide)

/-! ### Claim C3 -/

/-- Claim C3: the authorization prefix of `GET /levels/:id/stream` equals
the spec's ordered, short-circuiting cascade — (1) 404 for a missing or
placeholder video reference, (2) 404 for an unpublished course and a
non-admin caller, (3) 403 when the entitlement rule fails, (4) 403 for a
non-admin when the level number exceeds the unlock frontier — and on a
successful non-admin request the stored Progress record's
`lastAccessedAt` equals the request time, written before bytes are
served. -/
theorem C3_stream_authorization :
    ∀ (role : Role) (level : Option Level) (c : Course) (payment : Option Payment)
      (progress0 : Option Progress) (now : Nat),
      (streamAuth role level (some c) payment progress0 now).1 =
        streamAuthSpec role level c payment progress0 ∧
      ((streamAuth role level (some c) payment progress0 now).1 =
          StreamOutcome.serve → role ≠ Role.admin →
        ((streamAuth role level (some c) payment progress0 now).2.map
          Progress.lastAccessedAt) = some now) := by
  intro role level c payment progress0 now
  cases role <;> cases payment <;> cases progress0 <;>
    simp [streamAuth, streamAuthSpec, hasAccessSpec, ensureProgress, freshProgress,
      jsOr] <;>
    split_ifs <;> simp_all

/-- Claim C3 witness: a student streaming level 1 of a free published
course has `lastAccessedAt` stamped with the request time. -/
theorem C3_stream_authorization_witness :
    ((streamAuth Role.student
        (some { courseId := 1, title := "Intro", levelNumber := 1,
                quizEnabled := false, videoPath := some "/uploads/videos/a.mp4" })
        (some { price := 0, status := CourseStatus.published }) none none 7).2.map
      Progress.lastAccessedAt) = some 7 := by
  have h := (C3_stream_authorization Role.student
    (some { courseId := 1, title := "Intro", levelNumber := 1,
            quizEnabled := false, videoPath := some "/uploads/videos/a.mp4" })
    { price := 0, status := CourseStatus.published } none none 7).2
  exact h (by decide) (by decide)

/-! ### Claim C4 -/

/-- Claim C4, counterexample: the range branch does not clamp the
requested end to the file size.  For a 100-byte file and
`bytes=0-199` the code answers 206 with `Content-Length` 200 yet streams
only the 100 existing bytes — not "exactly that byte span" as claimed. -/
theorem C4_counterexample :
    (localRange 100 (some 0) (some 199)).status = 206 ∧
    (localRange 100 (some 0) (some 199)).contentLength = some 200 ∧
    (localRange 100 (some 0) (some 199)).body.length = 100 ∧
    (localRange 100 (some 0) (some 199)).body ≠ List.range' 0 200 := by decide

/-- Claim C4, amended: an invalid start or `start ≥ fileSize` yields 416
with `Content-Range: bytes */fileSize` and no body; and provided
`start ≤ end < fileSize` the response is 206 with
`Content-Range: bytes start-end/fileSize`, `Accept-Ranges: bytes`,
`Content-Length = end - start + 1`, streaming exactly that byte span,
with `end` defaulting to `fileSize - 1` when omitted.  (Outside the
proviso the code replies 206 advertising more bytes than it streams, per
the counterexample, or 500 when `end < start`.) -/
theorem C4_range_amended :
    (∀ (fileSize : Nat) (endPart : Option Nat),
      localRange fileSize none endPart =
        { status := 416, contentRange := some { span := none, size := fileSize }
          acceptRanges := none, contentLength := none, body := [] }) ∧
    (∀ (fileSize s : Nat) (endPart : Option Nat), fileSize ≤ s →
      localRange fileSize (some s) endPart =
        { status := 416, contentRange := some { span := none, size := fileSize }
          acceptRanges := none, contentLength := none, body := [] }) ∧
    (∀ (fileSize s e : Nat), s < fileSize → s ≤ e → e < fileSize →
      localRange fileSize (some s) (some e) =
        { status := 206
          contentRange := some { span := some (s, e), size := fileSize }
          acceptRanges := some "bytes"
          contentLength := some ((e : Int) - (s : Int) + 1)
          body := List.range' s (e - s + 1) }) ∧
    (∀ (fileSize s : Nat), s < fileSize →
      localRange fileSize (some s) none =
        { status := 206
          contentRange := some { span := some (s, fileSize - 1), size := fileSize }
          acceptRanges := some "bytes"
          contentLength := some ((fileSize : Int) - (s : Int))
          body := List.range' s (fileSize - s) }) := by
  refine ⟨?_, ?_, ?_, ?_⟩
  · intro fileSize endPart
    rfl
  · intro fileSize s endPart h
    simp [localRange, h]
  · intro fileSize s e h1 h2 h3
    have hns : ¬ (s ≥ fileSize) := by omega
    have hne : ¬ (s > e) := by omega
    simp [localRange, hns, hne]
    omega
  · intro fileSize s h
    have hns : ¬ (s ≥ fileSize) := by omega
    have hne : ¬ (s > fileSize - 1) := by omega
    simp [localRange, hns, hne]
    constructor
    · omega
    · omega

/-- Claim C4 witness: the spec's own example — `bytes=100-199` on a
1000-byte file gives 206, `Content-Range: bytes 100-199/1000`,
`Content-Length` 100, and exactly those 100 byte offsets. -/
theorem C4_range_amended_witness :
    localRange 1000 (some 100) (some 199) =
      { status := 206
        contentRange := some { span := some (100, 199), size := 1000 }
        acceptRanges := some "bytes"
        contentLength := some 100
        body := List.range' 100 100 } := by
  have h := C4_range_amended.2.2.1 1000 100 199 (by decide) (by decide) (by decide)
  simpa using h

/-! ### Claim C5 -/

/-- Claim C5: resubmitting over a rejected payment mutates the same record
in place — same id, `transactionId`, `amount` and `proofImage` replaced,
status reset to pending, and `rejectionReason`, `verifiedBy`, `verifiedAt`
cleared — answering 200; while a first submission creates a fresh pending
record and answers 201. -/
theorem C5_resubmission :
    ∀ (role : Role) (cid tid img : String) (c : Course) (amountReq : Option Int)
      (i : Nat) (p : Payment),
      (c.status = CourseStatus.published ∨ role = Role.admin) →
      cid ≠ "" → tid ≠ "" → c.price ≠ 0 →
      0 < amountReq.getD (c.price : Int) →
      (p.status = PayStatus.rejected →
        paymentSubmit role true cid true tid (some c) amountReq (some (i, p)) img =
          SubmitOutcome.resubmitted i
            { p with transactionId := tid
                     amount := amountReq.getD (c.price : Int)
                     proofImage := img
                     status := PayStatus.pending
                     rejectionReason := ""
                     notes := ""
                     verifiedBy := none
                     verifiedAt := none }) ∧
      paymentSubmit role true cid true tid (some c) amountReq none img =
        SubmitOutcome.created
          { transactionId := tid
            proofImage := img
            amount := amountReq.getD (c.price : Int)
            status := PayStatus.pending
            verifiedBy := none
            verifiedAt := none
            rejectionReason := ""
            notes := "" } ∧
      (∀ q : Payment,
        (SubmitOutcome.resubmitted i q).httpStatus = 200 ∧
        (SubmitOutcome.created q).httpStatus = 201) := by
  intro role cid tid img c amountReq i p hvis hcid htid hprice hamount
  have hv : ¬ (role ≠ Role.admin ∧ c.status ≠ CourseStatus.published) := by
    rcases hvis with h | h <;> simp [h]
  have hle : ¬ (amountReq.getD (c.price : Int) ≤ 0) := by omega
  refine ⟨?_, ?_, ?_⟩
  · intro hrej
    have hnp : ¬ (p.status = PayStatus.approved ∨ p.status = PayStatus.pending) := by
      rw [hrej]; simp
    simp [paymentSubmit, hcid, htid, hv, hprice, hle, hnp]
  · simp [paymentSubmit, hcid, htid, hv, hprice, hle]
  · intro q
    exact ⟨rfl, rfl⟩

/-- Claim C5 witness: a student resubmitting over a concrete rejected
record keeps id 7, gets a pending record with the new transaction id,
amount and proof, and cleared verifier fields. -/
theorem C5_resubmission_witness :
    paymentSubmit Role.student true "c1" true "tx2"
        (some { price := 499, status := CourseStatus.published }) none
        (some (7, { transactionId := "tx1", proofImage := "/uploads/a.png",
                    amount := 499, status := PayStatus.rejected,
                    verifiedBy := some 3, verifiedAt := some 4,
                    rejectionReason := "blurry", notes := "n" }))
        "/uploads/b.png" =
      SubmitOutcome.resubmitted 7
        { transactionId := "tx2", proofImage := "/uploads/b.png", amount := 499,
          status := PayStatus.pending, verifiedBy := none, verifiedAt := none,
          rejectionReason := "", notes := "" } := by
  have h := (C5_resubmission Role.student "c1" "tx2" "/uploads/b.png"
    { price := 499, status := CourseStatus.published } none 7
    { transactionId := "tx1", proofImage := "/uploads/a.png", amount := 499,
      status := PayStatus.rejected, verifiedBy := some 3, verifiedAt := some 4,
      rejectionReason := "blurry", notes := "n" }
    (Or.inl rfl) (by decide) (by decide) (by decide) (by decide)).1 rfl
  simpa using h

/-! ### Claim C6 -/

/-- Claim C6: on a successful quiz submission the returned score is the
exact rounding of `100 * correctCount / totalQuestions`, `passed` is
`score ≥ passingScore`, and the unlock frontier advances to
`max(currentLevel, levelNumber + 1)` exactly when the quiz was passed AND
the stored `videoWatchedPercent` for that level is already at least 90 —
passing alone, without the watch threshold, leaves `currentLevel`
unchanged. -/
theorem C6_quiz_scoring :
    ∀ (role : Role) (answers : List Answer) (qz : Quiz) (levelId : Nat) (lv : Level)
      (c : Course) (payment : Option Payment) (p : Progress) (totalLevels now : Nat),
      qz.active = true →
      qz.questions ≠ [] →
      (c.status = CourseStatus.published ∨ role = Role.admin) →
      (role = Role.admin ∨ c.price = 0 ∨
        payment.any (fun q => q.status = PayStatus.approved) = true) →
      (role = Role.admin ∨
        ((findEntry p.completedLevels levelId).map LevelEntry.quizAttempts).getD 0 <
          qz.maxAttempts) →
      ∃ (res : QuizResult) (stored : Progress),
        quizSubmit role answers (some qz) levelId (some lv) (some c) payment
            (some p) totalLevels now = (QSOutcome.ok res, some stored) ∧
        (res.score : ℤ) =
          round ((100 * (correctCount answers qz.questions) : ℚ) /
            (qz.questions.length : ℚ)) ∧
        res.passed = decide ((res.score : Int) ≥ qz.passingScore) ∧
        stored.currentLevel =
          (if res.passed = true ∧
              (90 : Int) ≤ ((findEntry p.completedLevels levelId).map
                LevelEntry.videoWatchedPercent).getD 0 then
            max (jsOr p.currentLevel 1) (lv.levelNumber + 1)
          else p.currentLevel) := by
  intro role answers qz levelId lv c payment p totalLevels now hAct hQ hvis hAcc hAtt
  have hg1 : ¬ (¬ qz.active = true ∧ ¬ role = Role.admin) := by simp [hAct]
  have hg3 : ¬ (role ≠ Role.admin ∧ c.status ≠ CourseStatus.published) := by
    rcases hvis with h | h <;> simp [h]
  have hg4 : ¬ (role ≠ Role.admin ∧ ¬ c.price = 0 ∧
      ¬ payment.any (fun q => q.status = PayStatus.approved) = true) := by
    rcases hAcc with h | h | h <;> simp [h]
  have hg5 : ¬ (role ≠ Role.admin ∧
      ((findEntry p.completedLevels levelId).map LevelEntry.quizAttempts).getD 0 ≥
        qz.maxAttempts) := by
    rcases hAtt with h | h
    · simp [h]
    · intro hx
      omega
  simp only [quizSubmit, ensureProgress, Option.getD_some, hAct, not_true,
    false_and, if_false, hQ, ite_false]
  rw [if_neg hg3, if_neg hg4, if_neg hg5]
  refine ⟨_, _, rfl, ?_, ?_, ?_⟩
  · have hb : 0 < qz.questions.length := List.length_pos.mpr hQ
    have h := jsRoundDiv_eq_round (100 * correctCount answers qz.questions)
      qz.questions.length hb
    simp only [h]
    push_cast
    ring_nf
  · rfl
  · rw [completionUpdate_currentLevel, calculateProgress_currentLevel]
    dsimp only
    rcases hE : findEntry p.completedLevels levelId with _ | e
    · simp [hE]
    · by_cases hW : (90 : Int) ≤ e.videoWatchedPercent
      · simp [hE, hW, Bool.and_eq_true, decide_eq_true_eq]
      · simp [hE, hW, Bool.and_eq_true, decide_eq_true_eq]

/-- Claim C6 witness: the spec's example — 4 questions, 3 answered
correctly, passing score 70 and a stored watch percentage of 50: the
score is 75, `passed` is true, and the frontier stays at 2. -/
theorem C6_quiz_scoring_witness :
    ∃ (res : QuizResult) (stored : Progress),
      quizSubmit Role.student
          [{ questionId := some 1, selectedAnswer := some 0 },
           { questionId := some 2, selectedAnswer := some 1 },
           { questionId := some 3, selectedAnswer := some 0 },
           { questionId := some 4, selectedAnswer := some 0 }]
          (some { levelId := 10, courseId := 1,
                  questions := [{ qid := 1, correctAnswer := 0 },
                                { qid := 2, correctAnswer := 1 },
                                { qid := 3, correctAnswer := 0 },
                                { qid := 4, correctAnswer := 2 }],
                  passingScore := 70, maxAttempts := 3, active := true })
          10
          (some { courseId := 1, title := "L2", levelNumber := 2,
                  quizEnabled := true, videoPath := some "v" })
          (some { price := 0, status := CourseStatus.published })
          none
          (some { completedLevels := [{ levelId := 10, completed := false,
                                        completedAt := none, quizScore := 0,
                                        quizPassed := false, quizAttempts := 1,
                                        videoWatchedPercent := 50 }],
                  currentLevel := 2, totalProgress := 0, courseCompleted := false,
                  courseCompletedAt := none, lastAccessedAt := 0 })
          4 9 = (QSOutcome.ok res, some stored) ∧
      (res.score : ℤ) =
        round ((100 * (correctCount
            [{ questionId := some 1, selectedAnswer := some 0 },
             { questionId := some 2, selectedAnswer := some 1 },
             { questionId := some 3, selectedAnswer := some 0 },
             { questionId := some 4, selectedAnswer := some 0 }]
            [{ qid := 1, correctAnswer := 0 }, { qid := 2, correctAnswer := 1 },
             { qid := 3, correctAnswer := 0 }, { qid := 4, correctAnswer := 2 }]) : ℚ) /
          (([{ qid := 1, correctAnswer := (0 : Int) }, { qid := 2, correctAnswer := 1 },
             { qid := 3, correctAnswer := 0 },
             { qid := 4, correctAnswer := 2 }] : List Question).length : ℚ)) ∧
      res.passed = decide ((res.score : Int) ≥ (70 : Int)) ∧
      stored.currentLevel =
        (if res.passed = true ∧
            (90 : Int) ≤ ((findEntry
              [{ levelId := 10, completed := false, completedAt := none,
                 quizScore := 0, quizPassed := false, quizAttempts := 1,
                 videoWatchedPercent := 50 }] 10).map
              LevelEntry.videoWatchedPercent).getD 0 then
          max (jsOr 2 1) (2 + 1)
        else 2) :=
  C6_quiz_scoring Role.student _ _ 10 _ _ none _ 4 9 rfl (by decide) (Or.inl rfl)
    (Or.inr (Or.inl rfl)) (Or.inr (by decide))

/-! ### Claim C7 -/

/-- Claim C7: a student whose stored attempt count for the level already
equals the quiz's `maxAttempts` gets the max-attempts error and the
Progress record is stored unchanged; admin callers can never hit the
max-attempts outcome; and below the limit, every successful submission
stores an attempt counter exactly one higher than before, pass or fail. -/
theorem C7_attempt_limit :
    (∀ (answers : List Answer) (qz : Quiz) (levelId : Nat) (lv : Level) (c : Course)
       (payment : Option Payment) (p : Progress) (totalLevels now : Nat),
      qz.active = true → qz.questions ≠ [] →
      c.status = CourseStatus.published →
      (c.price = 0 ∨ payment.any (fun q => q.status = PayStatus.approved) = true) →
      ((findEntry p.completedLevels levelId).map LevelEntry.quizAttempts).getD 0 =
        qz.maxAttempts →
      quizSubmit Role.student answers (some qz) levelId (some lv) (some c) payment
          (some p) totalLevels now =
        (QSOutcome.maxAttemptsHit qz.maxAttempts qz.maxAttempts, some p)) ∧
    (∀ (answers : List Answer) (quiz : Option Quiz) (levelId : Nat)
       (level : Option Level) (course : Option Course) (payment : Option Payment)
       (progress0 : Option Progress) (totalLevels now a m : Nat),
      (quizSubmit Role.admin answers quiz levelId level course payment progress0
          totalLevels now).1 ≠ QSOutcome.maxAttemptsHit a m) ∧
    (∀ (role : Role) (answers : List Answer) (qz : Quiz) (levelId : Nat) (lv : Level)
       (c : Course) (payment : Option Payment) (p : Progress) (totalLevels now : Nat),
      qz.active = true → qz.questions ≠ [] →
      (c.status = CourseStatus.published ∨ role = Role.admin) →
      (role = Role.admin ∨ c.price = 0 ∨
        payment.any (fun q => q.status = PayStatus.approved) = true) →
      (role = Role.admin ∨
        ((findEntry p.completedLevels levelId).map LevelEntry.quizAttempts).getD 0 <
          qz.maxAttempts) →
      ∃ (res : QuizResult) (stored : Progress),
        quizSubmit role answers (some qz) levelId (some lv) (some c) payment
            (some p) totalLevels now = (QSOutcome.ok res, some stored) ∧
        (findEntry stored.completedLevels levelId).map LevelEntry.quizAttempts =
          some (((findEntry p.completedLevels levelId).map
            LevelEntry.quizAttempts).getD 0 + 1) ∧
        res.attemptsUsed =
          ((findEntry p.completedLevels levelId).map LevelEntry.quizAttempts).getD 0
            + 1) := by
  refine ⟨?_, ?_, ?_⟩
  · intro answers qz levelId lv c payment p totalLevels now hAct hQ hPub hFree hEq
    have hg3 : ¬ ((Role.student : Role) ≠ Role.admin ∧
        c.status ≠ CourseStatus.published) := by simp [hPub]
    have hg4 : ¬ ((Role.student : Role) ≠ Role.admin ∧ ¬ c.price = 0 ∧
        ¬ payment.any (fun q => q.status = PayStatus.approved) = true) := by
      rcases hFree with h | h <;> simp [h]
    have hg5 : ((Role.student : Role) ≠ Role.admin ∧
        ((findEntry p.completedLevels levelId).map LevelEntry.quizAttempts).getD 0 ≥
          qz.maxAttempts) := by
      refine ⟨by simp, by omega⟩
    simp only [quizSubmit, ensureProgress, Option.getD_some, hAct, not_true,
      false_and, if_false, hQ, ite_false]
    rw [if_neg hg3, if_neg hg4, if_pos hg5, hEq]
  · intro answers quiz levelId level course payment progress0 totalLevels now a m
    cases quiz with
    | none => simp [quizSubmit]
    | some qz =>
      cases level with
      | none =>
        simp only [quizSubmit]
        split_ifs <;> simp
      | some lv =>
        cases course with
        | none =>
          simp only [quizSubmit]
          split_ifs <;> simp
        | some c =>
          simp only [quizSubmit, ensureProgress]
          split_ifs <;> simp_all
  · intro role answers qz levelId lv c payment p totalLevels now hAct hQ hvis hAcc hAtt
    have hg3 : ¬ (role ≠ Role.admin ∧ c.status ≠ CourseStatus.published) := by
      rcases hvis with h | h <;> simp [h]
    have hg4 : ¬ (role ≠ Role.admin ∧ ¬ c.price = 0 ∧
        ¬ payment.any (fun q => q.status = PayStatus.approved) = true) := by
      rcases hAcc with h | h | h <;> simp [h]
    have hg5 : ¬ (role ≠ Role.admin ∧
        ((findEntry p.completedLevels levelId).map LevelEntry.quizAttempts).getD 0 ≥
          qz.maxAttempts) := by
      rcases hAtt with h | h
      · simp [h]
      · intro hx
        omega
    simp only [quizSubmit, ensureProgress, Option.getD_some, hAct, not_true,
      false_and, if_false, hQ, ite_false]
    rw [if_neg hg3, if_neg hg4, if_neg hg5]
    refine ⟨_, _, rfl, ?_, rfl⟩
    rw [completionUpdate_completedLevels, calculateProgress_completedLevels]
    dsimp only
    by_cases hHas : hasEntry p.completedLevels levelId = true
    · rw [if_pos hHas]
      exact (congrArg (Option.map LevelEntry.quizAttempts)
        (findEntry_replace p.completedLevels levelId _ rfl hHas)).trans rfl
    · rw [if_neg hHas]
      exact (congrArg (Option.map LevelEntry.quizAttempts)
        (findEntry_append p.completedLevels levelId _ rfl
          (by simpa using hHas))).trans rfl

/-- Claim C7 witness: a student at 3 stored attempts of a 3-attempt quiz
is rejected with the max-attempts outcome and the stored record keeps
exactly 3 attempts. -/
theorem C7_attempt_limit_witness :
    quizSubmit Role.student []
        (some { levelId := 10, courseId := 1,
                questions := [{ qid := 1, correctAnswer := 0 }],
                passingScore := 70, maxAttempts := 3, active := true })
        10
        (some { courseId := 1, title := "L1", levelNumber := 1, quizEnabled := true,
                videoPath := some "v" })
        (some { price := 0, status := CourseStatus.published })
        none
        (some { completedLevels := [{ levelId := 10, completed := false,
                                      completedAt := none, quizScore := 40,
                                      quizPassed := false, quizAttempts := 3,
                                      videoWatchedPercent := 95 }],
                currentLevel := 1, totalProgress := 0, courseCompleted := false,
                courseCompletedAt := none, lastAccessedAt := 0 })
        1 9 =
      (QSOutcome.maxAttemptsHit 3 3,
        some { completedLevels := [{ levelId := 10, completed := false,
                                     completedAt := none, quizScore := 40,
                                     quizPassed := false, quizAttempts := 3,
                                     videoWatchedPercent := 95 }],
               currentLevel := 1, totalProgress := 0, courseCompleted := false,
               courseCompletedAt := none, lastAccessedAt := 0 }) := by
  have h := C7_attempt_limit.1 []
    { levelId := 10, courseId := 1, questions := [{ qid := 1, correctAnswer := 0 }],
      passingScore := 70, maxAttempts := 3, active := true }
    10
    { courseId := 1, title := "L1", levelNumber := 1, quizEnabled := true,
      videoPath := some "v" }
    { price := 0, status := CourseStatus.published }
    none
    { completedLevels := [{ levelId := 10, completed := false, completedAt := none,
                            quizScore := 40, quizPassed := false, quizAttempts := 3,
                            videoWatchedPercent := 95 }],
      currentLevel := 1, totalProgress := 0, courseCompleted := false,
      courseCompletedAt := none, lastAccessedAt := 0 }
    1 9 rfl (by decide) rfl (Or.inl rfl) (by decide)
  simpa using h

/-! ### Claim C8 -/

/-- Claim C8, counterexample: re-running a completing mutation on a
Progress record already marked completed (timestamp 5) overwrites the
stored completion timestamp with the current time 9 — recording course
completion is not idempotent as claimed. -/
theorem C8_counterexample :
    ((levelComplete Role.student 1 10
      (some { courseId := 1, title := "L1", levelNumber := 1, quizEnabled := false,
              videoPath := some "v" })
      (some { price := 0, status := CourseStatus.published })
      none
      (some { completedLevels := [{ levelId := 10, completed := true,
                                    completedAt := some 3, quizScore := 80,
                                    quizPassed := true, quizAttempts := 1,
                                    videoWatchedPercent := 95 }],
              currentLevel := 3, totalProgress := 100, courseCompleted := true,
              courseCompletedAt := some 5, lastAccessedAt := 3 })
      (some 95) 0 false 2 9).2.map Progress.courseCompletedAt) = some (some 9) ∧
    some (some 9) ≠ (some (some 5) : Option (Option Nat)) := by decide

/-- Claim C8, amended: on any progress mutation where `currentLevel`
exceeds the course's total level count, `courseCompleted` is set to true
and `totalProgress` is forced to 100, but `courseCompletedAt` is
overwritten with the current time on every such mutation — it is not
preserved when the record was already completed; below the threshold the
block leaves the record untouched. -/
theorem C8_completion_amended :
    ∀ (p : Progress) (totalLevels now : Nat),
      (totalLevels < p.currentLevel →
        completionUpdate p totalLevels now =
          { p with courseCompleted := true, totalProgress := 100,
                   courseCompletedAt := some now }) ∧
      (p.currentLevel ≤ totalLevels → completionUpdate p totalLevels now = p) := by
  intro p totalLevels now
  constructor <;> intro h
  · simp [completionUpdate, h]
  · have hn : ¬ (totalLevels < p.currentLevel) := by omega
    simp [completionUpdate, hn]

/-- Claim C8 witness: the amended rule applied to an already-completed
record with old timestamp 5 at time 9. -/
theorem C8_completion_amended_witness :
    completionUpdate
        { completedLevels := [], currentLevel := 3, totalProgress := 100,
          courseCompleted := true, courseCompletedAt := some 5,
          lastAccessedAt := 3 } 2 9 =
      { completedLevels := [], currentLevel := 3, totalProgress := 100,
        courseCompleted := true, courseCompletedAt := some 9,
        lastAccessedAt := 3 } := by
  have h := (C8_completion_amended
    { completedLevels := [], currentLevel := 3, totalProgress := 100,
      courseCompleted := true, courseCompletedAt := some 5,
      lastAccessedAt := 3 } 2 9).1 (by decide)
  simpa using h

/-! ### Claim C9 -/

/-- Claim C9: in both level-metadata responses the stored `videoPath` is
deleted for non-admin callers, and the response is a function of the
level's other fields and the derived `hasVideo` flag alone: two levels
differing only in their stored video reference but agreeing on `hasVideo`
produce identical responses. -/
theorem C9_video_reference_hidden :
    (∀ (l : Level) (u : Nat),
      (buildLevelView Role.student l u).videoPath = none ∧
      (buildLevelDetail Role.student l).videoPath = none) ∧
    (∀ (role : Role) (l : Level) (vp : Option String) (u : Nat),
      role ≠ Role.admin →
      hasVideoB l.videoPath = hasVideoB vp →
      buildLevelView role { l with videoPath := vp } u = buildLevelView role l u ∧
      buildLevelDetail role { l with videoPath := vp } =
        buildLevelDetail role l) := by
  constructor
  · intro l u
    exact ⟨rfl, rfl⟩
  · intro role l vp u hrole hv
    have hs : role = Role.student := by
      cases role
      · exact absurd rfl hrole
      · rfl
    subst hs
    constructor <;> simp [buildLevelView, buildLevelDetail, hv]

/-- Claim C9 witness: a local path and an external URL with the same
`hasVideo` flag yield the same student-visible listing entry. -/
theorem C9_video_reference_hidden_witness :
    buildLevelView Role.student
        { courseId := 1, title := "A", levelNumber := 1, quizEnabled := false,
          videoPath := some "https://drive.google.com/uc?id=abc" } 2 =
      buildLevelView Role.student
        { courseId := 1, title := "A", levelNumber := 1, quizEnabled := false,
          videoPath := some "/uploads/videos/a.mp4" } 2 := by
  have h := (C9_video_reference_hidden.2 Role.student
    { courseId := 1, title := "A", levelNumber := 1, quizEnabled := false,
      videoPath := some "/uploads/videos/a.mp4" }
    (some "https://drive.google.com/uc?id=abc") 2 (by decide) (by decide)).1
  simpa using h

/-! ### Claim C10 -/

/-- Claim C10: for a visible course with no Payment record for the caller,
the status endpoint reports `free` when the price is 0 and `unpaid`
otherwise, and with no Progress record it reports progress 0 and
`currentLevel` 0 (not 1). -/
theorem C10_status_no_records :
    ∀ (role : Role) (c : Course),
      role = Role.admin ∨ c.status = CourseStatus.published →
      paymentCourseStatus role (some c) none none =
        some { status := if c.price = 0 then "free" else "unpaid"
               hasAccess := decide (c.price = 0)
               progress := 0
               currentLevel := 0 } := by
  intro role c h
  have hvis : ¬ (role ≠ Role.admin ∧ c.status ≠ CourseStatus.published) := by
    rcases h with h | h <;> simp [h]
  by_cases hp : c.price = 0 <;> simp [paymentCourseStatus, hvis, hp]

/-- Claim C10 witness: an admin looking at a draft paid course with no
records gets status `unpaid`, progress 0 and `currentLevel` 0. -/
theorem C10_status_no_records_witness :
    paymentCourseStatus Role.admin (some { price := 5, status := CourseStatus.draft })
        none none =
      some { status := "unpaid", hasAccess := false, progress := 0,
             currentLevel := 0 } := by
  have h := C10_status_no_records Role.admin
    { price := 5, status := CourseStatus.draft } (Or.inl rfl)
  simpa using h

end AzBackend
